import Mathlib

/-!
Shallow embedding of the caching/CRUD core of the chatBot backend
(`app/main.py` together with the `crud` history-store helpers it calls).

The embedding models:
  * the Redis response cache as an association list of entries with an
    absolute expiry instant (`setex key 300 value` gives `expiresAt = now + 300`,
    and a native-expiry `get` that returns nothing at or after the expiry);
  * the SHA-256 content hash as an abstract function parameter `hash`
    (every statement is proved for an arbitrary hash function, which is
    strictly stronger than fixing one digest);
  * the OpenAI generator as an oracle `gen : String → Option String`
    (`none` models a raised exception / timeout); every call to the
    modelled `generate_response` increments a ghost counter `genCount`;
  * the history table as a list of records plus the autoincrement counter
    `nextId`;
  * Python truthiness of the cached value (`if cached_response:`), under
    which the empty string is falsy, exactly as in the source.

`crud.create_message`, `crud.update_message` and `crud.get_messages` are
imported by `app/main.py` but their module is not part of the sources at
hand; they are modelled from the spec (each such definition says so in its
doc comment).
-/

/-- A row of the `messages` table (`app/models.py`): autoincrement integer
primary key `id`, `content`, `response`. -/
structure MessageRecord where
  id : Nat
  content : String
  response : String
deriving DecidableEq, Repr

/-- A Redis value together with its absolute expiry instant, as produced by
`setex` (native expiry: the entry is unobservable from `expiresAt` on). -/
structure CacheEntry where
  value : String
  expiresAt : Nat
deriving DecidableEq, Repr

/-- Combined state: the Redis cache contents, the `messages` table, the
autoincrement counter, the current time in seconds, and a ghost counter of
generator invocations. -/
structure SysState where
  cache : List (String × CacheEntry)
  messages : List MessageRecord
  nextId : Nat
  now : Nat
  genCount : Nat
deriving DecidableEq, Repr

/-- Error outcomes surfaced by the endpoints: `notFound` is the
`HTTPException(404)`, `genFailure` a raised generator exception,
`redisFailure` a raised Redis client exception. -/
inductive ReqErr where
  | notFound
  | genFailure
  | redisFailure
deriving DecidableEq, Repr

/-- Redis `GET` with native expiry: the most recent entry for the key, if
still live (`now < expiresAt`), otherwise absent. -/
def redisGet (cache : List (String × CacheEntry)) (now : Nat) (key : String) :
    Option String :=
  match cache.lookup key with
  | none => none
  | some e => if now < e.expiresAt then some e.value else none

/-- Redis `SETEX key ttl value`: stores the value with expiry `now + ttl`,
shadowing any previous entry for the key. -/
def redisSetex (cache : List (String × CacheEntry)) (now : Nat) (key : String)
    (ttl : Nat) (value : String) : List (String × CacheEntry) :=
  (key, ⟨value, now + ttl⟩) :: cache

/-- The cache key built in `cache_response` / `check_cache_for_content`:
`f"message:{generate_content_hash(content)}"`, with the SHA-256 digest
abstracted as `hash`. -/
def cacheKey (hash : String → String) (content : String) : String :=
  "message:" ++ hash content

/-- Embeds `cache_response` (`app/main.py`): `redis_client.setex(key, 300, response)`
with the content-derived key. -/
def cache_response (hash : String → String) (s : SysState)
    (content response : String) : SysState :=
  { s with cache := redisSetex s.cache s.now (cacheKey hash content) 300 response }

/-- Embeds `check_cache_for_content` (`app/main.py`): `redis_client.get(key)`;
`if cached_response:` — Python truthiness, under which empty bytes are
falsy — returns the decoded string, else `None`. -/
def check_cache_for_content (hash : String → String) (s : SysState)
    (content : String) : Option String :=
  match redisGet s.cache s.now (cacheKey hash content) with
  | some cached => if cached = "" then none else some cached
  | none => none

/-- Modelled from the spec: `crud.create_message` is the repository's
`HistoryStore.append` and its module is not among the sources at hand.
Spec §4.3: "assigns the next unused id (id assignment is monotonic …),
persists the record, returns it." -/
def crud_create_message (s : SysState) (content response : String) :
    MessageRecord × SysState :=
  let rec0 : MessageRecord := ⟨s.nextId, content, response⟩
  (rec0, { s with messages := s.messages ++ [rec0], nextId := s.nextId + 1 })

/-- Embeds `generate_response` (`app/main.py`): one call to the external OpenAI
client on the given message; `none` models a raised exception. The ghost
counter is incremented at every invocation. -/
def generate_response (gen : String → Option String) (s : SysState)
    (message : String) : Option String × SysState :=
  (gen message, { s with genCount := s.genCount + 1 })

/-- The cache-miss tail of `send_message` (`app/main.py`):
`response = generate_response(...)`; `db_message = crud.create_message(...)`;
`cache_response(...)`; return `{id, content, response}` from `db_message`.
A generator exception propagates before any write. -/
def send_message_miss (hash : String → String) (gen : String → Option String)
    (s : SysState) (content : String) : SysState × Except ReqErr MessageRecord :=
  match generate_response gen s content with
  | (none, s1) => (s1, .error .genFailure)
  | (some response, s1) =>
      let (db_message, s2) := crud_create_message s1 content response
      let s3 := cache_response hash s2 content response
      (s3, .ok ⟨db_message.id, db_message.content, db_message.response⟩)

/-- Embeds `send_message` (`app/main.py`, POST `/messages/`):
`cached_response = check_cache_for_content(message.content)`;
`if cached_response:` (truthy, i.e. non-`None` and non-empty) append the
record with the cached response and return it without generating; otherwise
take the generation path. -/
def send_message (hash : String → String) (gen : String → Option String)
    (s : SysState) (content : String) : SysState × Except ReqErr MessageRecord :=
  match check_cache_for_content hash s content with
  | some cached_response =>
      if cached_response = "" then send_message_miss hash gen s content
      else
        let (db_message, s1) := crud_create_message s content cached_response
        (s1, .ok ⟨db_message.id, content, cached_response⟩)
  | none => send_message_miss hash gen s content

/-- Modelled from the spec: `crud.update_message` is the repository's
`HistoryStore.update` and its module is not among the sources at hand.
Spec §4.3: "in-place replace of content and response fields of the existing
record; fails with NotFound if id does not exist." Returns the updated
record and table, or `none` when the id is absent. -/
def crud_update_message (msgs : List MessageRecord) (message_id : Nat)
    (new_content new_response : String) :
    Option (List MessageRecord × MessageRecord) :=
  if msgs.any (fun m => m.id = message_id) then
    some
      (msgs.map (fun m =>
        if m.id = message_id then ⟨m.id, new_content, new_response⟩ else m),
       ⟨message_id, new_content, new_response⟩)
  else none

/-- Embeds `edit_message` (`app/main.py`, PUT `/messages/{message_id}`): first
`response = generate_response(new_content)` (unconditionally — the cache is
never consulted), then `crud.update_message`; `None` from the update raises
`HTTPException(404)`. -/
def edit_message (gen : String → Option String) (s : SysState)
    (message_id : Nat) (new_content : String) :
    SysState × Except ReqErr MessageRecord :=
  match generate_response gen s new_content with
  | (none, s1) => (s1, .error .genFailure)
  | (some response, s1) =>
      match crud_update_message s1.messages message_id new_content response with
      | none => (s1, .error .notFound)
      | some (msgs1, message) => ({ s1 with messages := msgs1 }, .ok message)

/-- Embeds `delete_message_and_following` (`app/main.py`, DELETE
`/messages/{message_id}`): `messages_to_delete` is every row with
`id >= message_id`; if there are none raise `HTTPException(404)`; else delete
exactly those rows and report their number. -/
def delete_message_and_following (s : SysState) (message_id : Nat) :
    SysState × Except ReqErr Nat :=
  let messages_to_delete := s.messages.filter (fun m => message_id ≤ m.id)
  if messages_to_delete.isEmpty then (s, .error .notFound)
  else
    ({ s with messages :=
        s.messages.filter (fun m => !(messages_to_delete.contains m)) },
     .ok messages_to_delete.length)

/-- Insertion step of the id-ascending sort used to model `ORDER BY id`. -/
def insertById (r : MessageRecord) : List MessageRecord → List MessageRecord
  | [] => [r]
  | x :: xs => if r.id ≤ x.id then r :: x :: xs else x :: insertById r xs

/-- Insertion sort by ascending id, modelling the store's `ORDER BY id`. -/
def sortById : List MessageRecord → List MessageRecord
  | [] => []
  | x :: xs => insertById x (sortById xs)

/-- Modelled from the spec: `crud.get_messages` is the repository's
`HistoryStore.list` and its module is not among the sources at hand.
Spec §4.3: "returns records ordered by id ascending, skipping the first
`skip` … and returning at most `limit` records." -/
def crud_get_messages (msgs : List MessageRecord) (skip limit : Nat) :
    List MessageRecord :=
  ((sortById msgs).drop skip).take limit

/-- Embeds `get_messages` (`app/main.py`, GET `/messages/`): delegates to
`crud.get_messages(db, skip, limit)`. -/
def get_messages (s : SysState) (skip limit : Nat) : List MessageRecord :=
  crud_get_messages s.messages skip limit

/-- Default of the `skip` query parameter in `get_messages` (source: 1). -/
def get_messages_default_skip : Nat := 1

/-- Default of the `limit` query parameter in `get_messages` (source: 10). -/
def get_messages_default_limit : Nat := 10

/-- Embeds `send_message` with the outcomes of the two Redis transport calls made
explicit, for reasoning about an unreachable cache: `rget` is the outcome of
the single `redis_client.get` (`.error` = raised exception) and `rset` the
outcome of the single `redis_client.setex`. The source wraps neither call in
`try/except`, so a raised exception propagates and aborts the request; the
`setex` happens after `crud.create_message`, so on a write failure the row
is already persisted. -/
def send_message_flaky (gen : String → Option String)
    (rget : Except Unit (Option String)) (rset : Except Unit Unit)
    (s : SysState) (content : String) : SysState × Except ReqErr MessageRecord :=
  match rget with
  | .error _ => (s, .error .redisFailure)
  | .ok raw =>
      let cached_response : Option String :=
        match raw with
        | some cached => if cached = "" then none else some cached
        | none => none
      match cached_response with
      | some cached =>
          let (db_message, s1) := crud_create_message s content cached
          (s1, .ok ⟨db_message.id, content, cached⟩)
      | none =>
          match generate_response gen s content with
          | (none, s1) => (s1, .error .genFailure)
          | (some response, s1) =>
              let (db_message, s2) := crud_create_message s1 content response
              match rset with
              | .error _ => (s2, .error .redisFailure)
              | .ok _ =>
                  (s2, .ok ⟨db_message.id, db_message.content, db_message.response⟩)

deriving instance DecidableEq for Except

/-! ## Helper lemmas shared by the claim theorems -/

theorem check_cache_of_redis_none (hash : String → String) (s : SysState)
    (C : String) (h : redisGet s.cache s.now (cacheKey hash C) = none) :
    check_cache_for_content hash s C = none := by
  simp [check_cache_for_content, h]

theorem check_cache_of_redis_empty (hash : String → String) (s : SysState)
    (C : String) (h : redisGet s.cache s.now (cacheKey hash C) = some "") :
    check_cache_for_content hash s C = none := by
  simp [check_cache_for_content, h]

theorem check_cache_of_redis_some (hash : String → String) (s : SysState)
    (C R : String) (h : redisGet s.cache s.now (cacheKey hash C) = some R)
    (hne : R ≠ "") :
    check_cache_for_content hash s C = some R := by
  simp [check_cache_for_content, h, hne]

theorem send_message_of_check_none (hash : String → String)
    (gen : String → Option String) (s : SysState) (C : String)
    (h : check_cache_for_content hash s C = none) :
    send_message hash gen s C = send_message_miss hash gen s C := by
  simp [send_message, h]

theorem send_message_miss_genCount (hash : String → String)
    (gen : String → Option String) (s : SysState) (C : String) :
    (send_message_miss hash gen s C).1.genCount = s.genCount + 1 := by
  rcases hg : gen C with _ | r <;>
    simp [send_message_miss, generate_response, hg, crud_create_message,
      cache_response]

theorem send_message_miss_eq (hash : String → String)
    (gen : String → Option String) (s : SysState) (C r : String)
    (hgen : gen C = some r) :
    send_message_miss hash gen s C =
      ({ s with
          cache := (cacheKey hash C, ⟨r, s.now + 300⟩) :: s.cache,
          messages := s.messages ++ [⟨s.nextId, C, r⟩],
          nextId := s.nextId + 1,
          genCount := s.genCount + 1 },
       .ok ⟨s.nextId, C, r⟩) := by
  simp [send_message_miss, generate_response, hgen, crud_create_message,
    cache_response, redisSetex]

theorem send_message_hit_eq (hash : String → String)
    (gen : String → Option String) (s : SysState) (C R : String)
    (h : redisGet s.cache s.now (cacheKey hash C) = some R) (hne : R ≠ "") :
    send_message hash gen s C =
      ({ s with
          messages := s.messages ++ [⟨s.nextId, C, R⟩],
          nextId := s.nextId + 1 },
       .ok ⟨s.nextId, C, R⟩) := by
  simp [send_message, check_cache_of_redis_some hash s C R h hne, hne,
    crud_create_message]

/-! ## Claim theorems -/

/-- Claim C1, counterexample: with the live cache entry for `"c"` holding
the empty response, `create("c")` takes the generation path — the generator
count rises — contradicting "never invokes the generator". -/
theorem send_message_cache_hit_counterexample :
    redisGet [("message:k", ⟨"", 300⟩)] 0 (cacheKey (fun _ => "k") "c") =
      some "" ∧
    ¬ ((send_message (fun _ => "k") (fun _ => some "gA")
          ⟨[("message:k", ⟨"", 300⟩)], [], 1, 0, 0⟩ "c").1.genCount =
        (⟨[("message:k", ⟨"", 300⟩)], [], 1, 0, 0⟩ : SysState).genCount) ∧
    (send_message (fun _ => "k") (fun _ => some "gA")
        ⟨[("message:k", ⟨"", 300⟩)], [], 1, 0, 0⟩ "c").2 =
      .ok ⟨1, "c", "gA"⟩ := by
  decide

/-- Claim C1 (amended: the cached response must be non-empty, since the
source tests `if cached_response:` and Python treats the empty string as
falsy): for a live cache entry holding a non-empty `R`, `create(C)` returns
a record with response `R` and content `C`, appends exactly that record,
and never invokes the generator. -/
theorem send_message_cache_hit (hash : String → String)
    (gen : String → Option String) (s : SysState) (C R : String)
    (h : redisGet s.cache s.now (cacheKey hash C) = some R) (hne : R ≠ "") :
    send_message hash gen s C =
      ({ s with
          messages := s.messages ++ [⟨s.nextId, C, R⟩],
          nextId := s.nextId + 1 },
       .ok ⟨s.nextId, C, R⟩) ∧
    (send_message hash gen s C).1.genCount = s.genCount := by
  refine ⟨send_message_hit_eq hash gen s C R h hne, ?_⟩
  rw [send_message_hit_eq hash gen s C R h hne]

/-- Witness for C1 at a concrete cached state. -/
theorem send_message_cache_hit_witness :
    send_message (fun c => c) (fun _ => none)
        ⟨[("message:c", ⟨"R", 300⟩)], [], 1, 0, 0⟩ "c" =
      (⟨[("message:c", ⟨"R", 300⟩)], [⟨1, "c", "R"⟩], 2, 0, 0⟩,
       .ok ⟨1, "c", "R"⟩) := by
  have h := send_message_cache_hit (fun c => c) (fun _ => none)
    ⟨[("message:c", ⟨"R", 300⟩)], [], 1, 0, 0⟩ "c" "R" (by decide) (by decide)
  rw [h.1]
  decide

/-- Claim C10: a live cache entry whose value is the empty string is
indistinguishable from absence — `check_cache_for_content` reports a miss —
so `create` on that content takes the generation path and invokes the
generator again. -/
theorem empty_cached_value_is_miss (hash : String → String)
    (gen : String → Option String) (s : SysState) (C : String)
    (hlive : redisGet s.cache s.now (cacheKey hash C) = some "") :
    check_cache_for_content hash s C = none ∧
    (send_message hash gen s C).1.genCount = s.genCount + 1 := by
  have hc := check_cache_of_redis_empty hash s C hlive
  refine ⟨hc, ?_⟩
  rw [send_message_of_check_none hash gen s C hc]
  exact send_message_miss_genCount hash gen s C

/-- Witness for C10 at a concrete state with a live empty-valued entry. -/
theorem empty_cached_value_is_miss_witness :
    check_cache_for_content (fun c => c)
        ⟨[("message:c", ⟨"", 300⟩)], [], 1, 0, 0⟩ "c" = none ∧
    (send_message (fun c => c) (fun _ => some "gA")
        ⟨[("message:c", ⟨"", 300⟩)], [], 1, 0, 0⟩ "c").1.genCount = 0 + 1 := by
  exact empty_cached_value_is_miss (fun c => c) (fun _ => some "gA")
    ⟨[("message:c", ⟨"", 300⟩)], [], 1, 0, 0⟩ "c" (by decide)

theorem send_message_hit_genCount (hash : String → String)
    (gen : String → Option String) (s : SysState) (C R : String)
    (h : redisGet s.cache s.now (cacheKey hash C) = some R) (hne : R ≠ "") :
    (send_message hash gen s C).1.genCount = s.genCount := by
  rw [send_message_hit_eq hash gen s C R h hne]

/-- Claim C2, counterexample: when the generated response is the empty
string, the entry written to the cache is live but falsy, so a second
`create` of the same content within the TTL window invokes the generator
again — contradicting "does not invoke the generator again". -/
theorem send_message_cache_miss_counterexample :
    redisGet ([] : List (String × CacheEntry)) 0
        (cacheKey (fun c => c) "hello") = none ∧
    redisGet (send_message (fun c => c) (fun _ => some "")
        ⟨[], [], 1, 0, 0⟩ "hello").1.cache 0 (cacheKey (fun c => c) "hello") =
      some "" ∧
    ¬ ((send_message (fun c => c) (fun _ => some "")
          (send_message (fun c => c) (fun _ => some "")
            ⟨[], [], 1, 0, 0⟩ "hello").1 "hello").1.genCount =
        (send_message (fun c => c) (fun _ => some "")
          ⟨[], [], 1, 0, 0⟩ "hello").1.genCount) := by
  decide

/-- Claim C2 (amended: the follow-up guarantee needs the generated response
to be non-empty, since an empty cached value is falsy under the source's
`if cached_response:` test): on a cache miss, `create(C)` invokes the
generator exactly once, appends the record carrying the generated response,
writes the cache entry for `C` with that response and TTL 300; and a second
`create(C)` at any time strictly before the expiry does not invoke the
generator again. -/
theorem send_message_cache_miss (hash : String → String)
    (gen : String → Option String) (s : SysState) (C r : String) (t' : Nat)
    (habs : redisGet s.cache s.now (cacheKey hash C) = none)
    (hgen : gen C = some r) :
    send_message hash gen s C =
      ({ s with
          cache := (cacheKey hash C, ⟨r, s.now + 300⟩) :: s.cache,
          messages := s.messages ++ [⟨s.nextId, C, r⟩],
          nextId := s.nextId + 1,
          genCount := s.genCount + 1 },
       .ok ⟨s.nextId, C, r⟩) ∧
    (r ≠ "" → t' < s.now + 300 →
      (send_message hash gen
          { (send_message hash gen s C).1 with now := t' } C).1.genCount =
        (send_message hash gen s C).1.genCount) := by
  have h1 : send_message hash gen s C =
      ({ s with
          cache := (cacheKey hash C, ⟨r, s.now + 300⟩) :: s.cache,
          messages := s.messages ++ [⟨s.nextId, C, r⟩],
          nextId := s.nextId + 1,
          genCount := s.genCount + 1 },
       .ok ⟨s.nextId, C, r⟩) := by
    rw [send_message_of_check_none hash gen s C
      (check_cache_of_redis_none hash s C habs)]
    exact send_message_miss_eq hash gen s C r hgen
  refine ⟨h1, fun hne ht => ?_⟩
  rw [h1]
  have h2 : redisGet
      ((cacheKey hash C, (⟨r, s.now + 300⟩ : CacheEntry)) :: s.cache) t'
      (cacheKey hash C) = some r := by
    simp [redisGet, List.lookup, ht]
  exact send_message_hit_genCount hash gen _ C r h2 hne

/-- Witness for C2: fresh create of `"hello"`, then a second create at
time 100 (inside the TTL window) leaves the generator count unchanged. -/
theorem send_message_cache_miss_witness :
    send_message (fun c => c) (fun _ => some "gA") ⟨[], [], 1, 0, 0⟩ "hello" =
      (⟨[("message:hello", ⟨"gA", 300⟩)], [⟨1, "hello", "gA"⟩], 2, 0, 1⟩,
       .ok ⟨1, "hello", "gA"⟩) ∧
    (send_message (fun c => c) (fun _ => some "gA")
        { (send_message (fun c => c) (fun _ => some "gA")
            ⟨[], [], 1, 0, 0⟩ "hello").1 with now := 100 } "hello").1.genCount =
      (send_message (fun c => c) (fun _ => some "gA")
        ⟨[], [], 1, 0, 0⟩ "hello").1.genCount := by
  have h := send_message_cache_miss (fun c => c) (fun _ => some "gA")
    ⟨[], [], 1, 0, 0⟩ "hello" "gA" 100 (by decide) rfl
  refine ⟨?_, h.2 (by decide) (by decide)⟩
  rw [h.1]
  decide

/-- Claim C6: if the cache misses and the generator call fails, the request
aborts with a generator error and neither the history table nor the cache
is changed (only the ghost invocation counter moves). -/
theorem generator_failure_no_partial_writes (hash : String → String)
    (gen : String → Option String) (s : SysState) (C : String)
    (hmiss : check_cache_for_content hash s C = none) (hfail : gen C = none) :
    send_message hash gen s C =
      ({ s with genCount := s.genCount + 1 }, .error .genFailure) ∧
    (send_message hash gen s C).1.messages = s.messages ∧
    (send_message hash gen s C).1.cache = s.cache := by
  have h1 : send_message hash gen s C =
      ({ s with genCount := s.genCount + 1 }, .error .genFailure) := by
    rw [send_message_of_check_none hash gen s C hmiss]
    simp [send_message_miss, generate_response, hfail]
  exact ⟨h1, by rw [h1], by rw [h1]⟩

/-- Witness for C6 on the empty state with an always-failing generator. -/
theorem generator_failure_no_partial_writes_witness :
    send_message (fun c => c) (fun _ => none) ⟨[], [], 1, 0, 0⟩ "hello" =
      (⟨[], [], 1, 0, 1⟩, .error .genFailure) ∧
    (send_message (fun c => c) (fun _ => none)
        ⟨[], [], 1, 0, 0⟩ "hello").1.messages = [] ∧
    (send_message (fun c => c) (fun _ => none)
        ⟨[], [], 1, 0, 0⟩ "hello").1.cache = [] := by
  exact generator_failure_no_partial_writes (fun c => c) (fun _ => none)
    ⟨[], [], 1, 0, 0⟩ "hello" (by decide) rfl

/-- Claim C8: `cache_response` stores with `setex … 300 …`, so the entry it
writes at time `T = s.now` is gone from `get` at every time `≥ T + 300` and
is present with the stored value at every time `< T + 300`: the TTL of
every put is exactly 300 seconds. -/
theorem cache_ttl_300 (hash : String → String) (s : SysState)
    (content response : String) (t : Nat) :
    (s.now + 300 ≤ t →
      redisGet (cache_response hash s content response).cache t
        (cacheKey hash content) = none) ∧
    (t < s.now + 300 →
      redisGet (cache_response hash s content response).cache t
        (cacheKey hash content) = some response) := by
  refine ⟨fun ht => ?_, fun ht => ?_⟩
  · simp [cache_response, redisSetex, redisGet, List.lookup, Nat.not_lt.mpr ht]
  · simp [cache_response, redisSetex, redisGet, List.lookup, ht]

/-- Witness for C8: the entry written at time 0 is absent at time 300 and
present at time 299. -/
theorem cache_ttl_300_witness :
    redisGet (cache_response (fun c => c) ⟨[], [], 1, 0, 0⟩ "c" "R").cache 300
        (cacheKey (fun c => c) "c") = none ∧
    redisGet (cache_response (fun c => c) ⟨[], [], 1, 0, 0⟩ "c" "R").cache 299
        (cacheKey (fun c => c) "c") = some "R" := by
  exact ⟨(cache_ttl_300 (fun c => c) ⟨[], [], 1, 0, 0⟩ "c" "R" 300).1 (by decide),
         (cache_ttl_300 (fun c => c) ⟨[], [], 1, 0, 0⟩ "c" "R" 299).2 (by decide)⟩

/-- Claim C3, counterexample: with the Redis `get` raising (cache
unreachable) the request fails with a Redis error instead of proceeding —
the generator is never invoked and nothing is appended — so a cache-read
failure is propagated as a request failure, not treated as a miss. -/
theorem cache_failure_counterexample :
    (send_message_flaky (fun _ => some "gA") (.error ()) (.ok ())
        ⟨[], [], 1, 0, 0⟩ "c").2 = .error .redisFailure ∧
    (send_message_flaky (fun _ => some "gA") (.error ()) (.ok ())
        ⟨[], [], 1, 0, 0⟩ "c").1 = ⟨[], [], 1, 0, 0⟩ := by
  decide

/-- Claim C3 (amended: the source wraps neither Redis call in `try/except`,
so a cache failure is NOT absorbed): a failing cache read aborts the request
before generation with the state untouched, and a failing cache write aborts
the request after the generated record has already been appended. -/
theorem cache_failure_propagates (gen : String → Option String)
    (rset : Except Unit Unit) (s : SysState) (C r : String)
    (hgen : gen C = some r) :
    (∀ s' C', send_message_flaky gen (.error ()) rset s' C' =
      (s', .error .redisFailure)) ∧
    send_message_flaky gen (.ok none) (.error ()) s C =
      ({ s with
          messages := s.messages ++ [⟨s.nextId, C, r⟩],
          nextId := s.nextId + 1,
          genCount := s.genCount + 1 },
       .error .redisFailure) := by
  refine ⟨fun s' C' => rfl, ?_⟩
  simp [send_message_flaky, generate_response, hgen, crud_create_message]

/-- Witness for C3 (amended) at concrete states: read failure leaves the
state untouched; write failure after generating `"gA"` leaves the appended
row behind while the request errors. -/
theorem cache_failure_propagates_witness :
    send_message_flaky (fun _ => some "gA") (.error ()) (.ok ())
        ⟨[], [], 1, 0, 0⟩ "x" = (⟨[], [], 1, 0, 0⟩, .error .redisFailure) ∧
    send_message_flaky (fun _ => some "gA") (.ok none) (.error ())
        ⟨[], [], 1, 0, 0⟩ "c" =
      (⟨[], [⟨1, "c", "gA"⟩], 2, 0, 1⟩, .error .redisFailure) := by
  have h := cache_failure_propagates (fun _ => some "gA") (.ok ())
    ⟨[], [], 1, 0, 0⟩ "c" "gA" rfl
  refine ⟨h.1 ⟨[], [], 1, 0, 0⟩ "x", ?_⟩
  rw [h.2]
  decide

/-- Claim C7: neither `edit_message` nor `delete_message_and_following`
reads or writes the cache — each leaves the cache field exactly as it was,
and its outcome (result and resulting history) is the same whatever the
cache contains. -/
theorem edit_delete_cache_frame (gen : String → Option String) (s : SysState)
    (mid : Nat) (nc : String) (c' : List (String × CacheEntry)) :
    (edit_message gen s mid nc).1.cache = s.cache ∧
    (delete_message_and_following s mid).1.cache = s.cache ∧
    (edit_message gen { s with cache := c' } mid nc).2 =
      (edit_message gen s mid nc).2 ∧
    (edit_message gen { s with cache := c' } mid nc).1.messages =
      (edit_message gen s mid nc).1.messages ∧
    (delete_message_and_following { s with cache := c' } mid).2 =
      (delete_message_and_following s mid).2 ∧
    (delete_message_and_following { s with cache := c' } mid).1.messages =
      (delete_message_and_following s mid).1.messages := by
  have hedit : ∀ cc,
      (edit_message gen { s with cache := cc } mid nc).1.cache = cc ∧
      (edit_message gen { s with cache := cc } mid nc).2 =
        (edit_message gen s mid nc).2 ∧
      (edit_message gen { s with cache := cc } mid nc).1.messages =
        (edit_message gen s mid nc).1.messages := by
    intro cc
    rcases hg : gen nc with _ | r
    · simp [edit_message, generate_response, hg]
    · rcases hu : crud_update_message s.messages mid nc r with _ | ⟨msgs1, m⟩ <;>
        simp [edit_message, generate_response, hg, hu]
  have hdel : ∀ cc,
      (delete_message_and_following { s with cache := cc } mid).1.cache = cc ∧
      (delete_message_and_following { s with cache := cc } mid).2 =
        (delete_message_and_following s mid).2 ∧
      (delete_message_and_following { s with cache := cc } mid).1.messages =
        (delete_message_and_following s mid).1.messages := by
    intro cc
    by_cases hd : (s.messages.filter (fun m => decide (mid ≤ m.id))).isEmpty = true <;>
      simp [delete_message_and_following, hd]
  have he := hedit s.cache
  have hd := hdel s.cache
  have he' := hedit c'
  have hd' := hdel c'
  exact ⟨by simpa using he.1, by simpa using hd.1, he'.2.1, he'.2.2,
    hd'.2.1, hd'.2.2⟩

/-- Claim C4: `deleteFrom(mid)` removes exactly the records with
`id ≥ mid`, leaves the records with smaller ids unchanged and in place,
returns the number removed; when no record with `id ≥ mid` exists it fails
with NotFound, and hence a second `deleteFrom(mid)` right after a
successful one fails with NotFound. -/
theorem delete_from_spec (s : SysState) (mid : Nat) :
    (s.messages.filter (fun m => decide (mid ≤ m.id)) ≠ [] →
      delete_message_and_following s mid =
        ({ s with messages := s.messages.filter (fun m => decide (m.id < mid)) },
         .ok (s.messages.filter (fun m => decide (mid ≤ m.id))).length) ∧
      (delete_message_and_following
        (delete_message_and_following s mid).1 mid).2 = .error .notFound) ∧
    (s.messages.filter (fun m => decide (mid ≤ m.id)) = [] →
      delete_message_and_following s mid = (s, .error .notFound)) := by
  constructor
  · intro hne
    have hie : (s.messages.filter (fun m => decide (mid ≤ m.id))).isEmpty = false :=
      Bool.eq_false_iff.mpr fun hEq => hne (List.isEmpty_iff.mp hEq)
    have h1 : delete_message_and_following s mid =
        ({ s with messages := s.messages.filter (fun m => decide (m.id < mid)) },
         .ok (s.messages.filter (fun m => decide (mid ≤ m.id))).length) := by
      simp [delete_message_and_following, hie]
      refine List.filter_congr fun m hm => ?_
      by_cases hc : mid ≤ m.id
      · simp [hm, hc, Nat.not_lt.mpr hc]
      · simp [hm, hc, lt_of_not_le hc]
    refine ⟨h1, ?_⟩
    rw [h1]
    have hnil : (s.messages.filter (fun m => decide (m.id < mid))).filter
        (fun m => decide (mid ≤ m.id)) = [] := by
      rw [List.filter_filter]
      refine List.filter_eq_nil_iff.mpr fun m hm => ?_
      simp only [Bool.and_eq_true, decide_eq_true_eq]
      rintro ⟨h2, h3⟩
      omega
    simp [delete_message_and_following, hnil]
  · intro hnil
    simp [delete_message_and_following, hnil]

/-- Witness for C4 on the spec's own example: ids `{1,2,3,4,5}`,
`deleteFrom(3)` removes `{3,4,5}`, leaves `{1,2}`, returns 3, and a repeat
`deleteFrom(3)` is NotFound. -/
theorem delete_from_spec_witness :
    delete_message_and_following
        ⟨[], [⟨1, "a", "r1"⟩, ⟨2, "b", "r2"⟩, ⟨3, "c", "r3"⟩, ⟨4, "d", "r4"⟩,
          ⟨5, "e", "r5"⟩], 6, 0, 0⟩ 3 =
      (⟨[], [⟨1, "a", "r1"⟩, ⟨2, "b", "r2"⟩], 6, 0, 0⟩, .ok 3) ∧
    (delete_message_and_following
      (delete_message_and_following
        ⟨[], [⟨1, "a", "r1"⟩, ⟨2, "b", "r2"⟩, ⟨3, "c", "r3"⟩, ⟨4, "d", "r4"⟩,
          ⟨5, "e", "r5"⟩], 6, 0, 0⟩ 3).1 3).2 = .error .notFound := by
  have h := (delete_from_spec
    ⟨[], [⟨1, "a", "r1"⟩, ⟨2, "b", "r2"⟩, ⟨3, "c", "r3"⟩, ⟨4, "d", "r4"⟩,
      ⟨5, "e", "r5"⟩], 6, 0, 0⟩ 3).1 (by decide)
  refine ⟨?_, h.2⟩
  rw [h.1]
  decide

/-- Claim C5: `edit(id, newContent)` invokes the generator on `newContent`
unconditionally and without consulting the cache (its outcome is the same
for every cache content), and on an existing id the resulting record is
`⟨id, newContent, freshly generated response⟩` — the prior response is
replaced in the table; on a non-existing id it fails with NotFound. -/
theorem edit_message_spec (gen : String → Option String) (s : SysState)
    (mid : Nat) (nc r : String) (hgen : gen nc = some r) :
    ((∃ m ∈ s.messages, m.id = mid) →
      edit_message gen s mid nc =
        ({ s with
            messages := s.messages.map (fun m =>
              if m.id = mid then ⟨m.id, nc, r⟩ else m),
            genCount := s.genCount + 1 },
         .ok ⟨mid, nc, r⟩)) ∧
    (∀ c', (edit_message gen { s with cache := c' } mid nc).2 =
      (edit_message gen s mid nc).2) ∧
    (edit_message gen s mid nc).1.genCount = s.genCount + 1 ∧
    ((∀ m ∈ s.messages, m.id ≠ mid) →
      edit_message gen s mid nc =
        ({ s with genCount := s.genCount + 1 }, .error .notFound)) := by
  refine ⟨fun hex => ?_, fun c' => ?_, ?_, fun hall => ?_⟩
  · have hany : (s.messages.any fun m => decide (m.id = mid)) = true := by
      rw [List.any_eq_true]
      obtain ⟨m, hm, hid⟩ := hex
      exact ⟨m, hm, by simp [hid]⟩
    simp [edit_message, generate_response, hgen, crud_update_message, hany]
  · rcases hu : crud_update_message s.messages mid nc r with _ | ⟨msgs1, m⟩ <;>
      simp [edit_message, generate_response, hgen, hu]
  · rcases hu : crud_update_message s.messages mid nc r with _ | ⟨msgs1, m⟩ <;>
      simp [edit_message, generate_response, hgen, hu]
  · have hany : (s.messages.any fun m => decide (m.id = mid)) = false := by
      rw [List.any_eq_false]
      intro m hm
      simp [hall m hm]
    simp [edit_message, generate_response, hgen, crud_update_message, hany]

/-- Witness for C5: editing id 2 of a two-row table replaces both fields
with the new content and the fresh generation, and editing the absent id 9
is NotFound. -/
theorem edit_message_spec_witness :
    edit_message (fun _ => some "fresh")
        ⟨[], [⟨1, "a", "r1"⟩, ⟨2, "b", "r2"⟩], 3, 0, 0⟩ 2 "new text" =
      (⟨[], [⟨1, "a", "r1"⟩, ⟨2, "new text", "fresh"⟩], 3, 0, 1⟩,
       .ok ⟨2, "new text", "fresh"⟩) ∧
    edit_message (fun _ => some "fresh")
        ⟨[], [⟨1, "a", "r1"⟩, ⟨2, "b", "r2"⟩], 3, 0, 0⟩ 9 "new text" =
      (⟨[], [⟨1, "a", "r1"⟩, ⟨2, "b", "r2"⟩], 3, 0, 1⟩, .error .notFound) := by
  have h2 := edit_message_spec (fun _ => some "fresh")
    ⟨[], [⟨1, "a", "r1"⟩, ⟨2, "b", "r2"⟩], 3, 0, 0⟩ 2 "new text" "fresh" rfl
  have h9 := edit_message_spec (fun _ => some "fresh")
    ⟨[], [⟨1, "a", "r1"⟩, ⟨2, "b", "r2"⟩], 3, 0, 0⟩ 9 "new text" "fresh" rfl
  constructor
  · rw [h2.1 (by decide)]
    decide
  · rw [h9.2.2.2 (by decide)]

theorem insertById_cons_of_le (x y : MessageRecord) (ys : List MessageRecord)
    (h : x.id ≤ y.id) : insertById x (y :: ys) = x :: y :: ys := by
  simp [insertById, h]

theorem sortById_of_sorted (l : List MessageRecord)
    (h : List.Pairwise (fun a b => a.id < b.id) l) : sortById l = l := by
  induction l with
  | nil => rfl
  | cons x xs ih =>
      obtain ⟨hx, htail⟩ := List.pairwise_cons.mp h
      rw [sortById, ih htail]
      cases xs with
      | nil => rfl
      | cons y ys =>
          exact insertById_cons_of_le x y ys
            (Nat.le_of_lt (hx y (List.mem_cons_self y ys)))

/-- Claim C9: on an id-sorted table, `list(skip, limit)` is the id-ascending
record sequence minus its first `skip` elements, truncated to at most
`limit` elements; the endpoint's defaults are `skip = 1`, `limit = 10`, so
by default the first record is skipped. -/
theorem get_messages_spec (s : SysState) (skip limit : Nat)
    (hs : List.Pairwise (fun a b => a.id < b.id) s.messages) :
    get_messages s skip limit = (s.messages.drop skip).take limit ∧
    (get_messages s skip limit).length ≤ limit ∧
    List.Pairwise (fun a b => a.id < b.id) (get_messages s skip limit) ∧
    get_messages_default_skip = 1 ∧ get_messages_default_limit = 10 ∧
    get_messages s get_messages_default_skip get_messages_default_limit =
      (s.messages.drop 1).take 10 := by
  have h1 : ∀ sk li, get_messages s sk li = (s.messages.drop sk).take li := by
    intro sk li
    simp [get_messages, crud_get_messages, sortById_of_sorted s.messages hs]
  refine ⟨h1 skip limit, ?_, ?_, rfl, rfl, h1 1 10⟩
  · rw [h1]
    exact List.length_take_le limit _
  · rw [h1]
    exact List.Pairwise.sublist
      ((List.take_sublist limit _).trans (List.drop_sublist skip _)) hs

/-- Witness for C9 on a three-row table: the default call skips the first
record; an explicit `skip = 0, limit = 2` keeps the first two. -/
theorem get_messages_spec_witness :
    get_messages ⟨[], [⟨1, "a", "r1"⟩, ⟨2, "b", "r2"⟩, ⟨3, "c", "r3"⟩], 4, 0, 0⟩
        get_messages_default_skip get_messages_default_limit =
      [⟨2, "b", "r2"⟩, ⟨3, "c", "r3"⟩] ∧
    get_messages ⟨[], [⟨1, "a", "r1"⟩, ⟨2, "b", "r2"⟩, ⟨3, "c", "r3"⟩], 4, 0, 0⟩
        0 2 = [⟨1, "a", "r1"⟩, ⟨2, "b", "r2"⟩] := by
  have h := get_messages_spec
    ⟨[], [⟨1, "a", "r1"⟩, ⟨2, "b", "r2"⟩, ⟨3, "c", "r3"⟩], 4, 0, 0⟩ 0 2
    (by decide)
  constructor
  · rw [h.2.2.2.2.2]
    decide
  · rw [h.1]
    decide
